import Mathlib

/-!
Shallow embedding of the WhatsApp multi-instance session manager
(Express server, Baileys protocol client, Mongoose `Session` model).

State components mirror the process-global maps of the server:
`sessions` (live handles), `qrCodes` (pairing-code cache),
`initializingSessions` (creation guards), the Mongo `Session` collection
(`db`), and the on-disk auth folders (`authFiles`).
-/

namespace WhatsappApi

/-- Pointwise update of a key-indexed map. -/
def fupd {β : Type} (f : String → β) (k : String) (v : β) : String → β :=
  fun k' => if k' = k then v else f k'

/-- In-memory cache entry: `qrCodes[instanceKey] = { qr, generatedAt }`.
Timestamps are milliseconds since the epoch. -/
structure QrEntry where
  qr : String
  generatedAt : Nat
deriving DecidableEq, Repr

/-- The durable Mongo record (`models/Session.js`): `connected` defaults to
false, `qr` and `qrGeneratedAt` are optional. -/
structure SessionRecord where
  connected : Bool
  qr : Option String
  qrGeneratedAt : Option Nat
  lastConnected : Option Nat
deriving DecidableEq, Repr

/-- A fresh durable record, as mongoose creates on upsert
(schema defaults: `connected: false`, optional fields absent). -/
def defaultRecord : SessionRecord :=
  { connected := false, qr := none, qrGeneratedAt := none, lastConnected := none }

/-- The server's mutable state. Live handles are opaque; we identify them by
a number drawn from `nextSock`. -/
structure ServerState where
  sessions : String → Option Nat
  qrCodes : String → Option QrEntry
  initializingSessions : String → Bool
  db : String → Option SessionRecord
  authFiles : String → Bool
  nextSock : Nat

/-- The state at process start: every map empty. -/
def initState : ServerState :=
  { sessions := fun _ => none
    qrCodes := fun _ => none
    initializingSessions := fun _ => false
    db := fun _ => none
    authFiles := fun _ => false
    nextSock := 0 }

/-- Model of `Session.findOneAndUpdate({instanceKey}, fields, {upsert: true})`:
apply the field updates to the existing record, or to a fresh default. -/
def dbUpsert (db : String → Option SessionRecord) (k : String)
    (f : SessionRecord → SessionRecord) : String → Option SessionRecord :=
  fupd db k (some (f ((db k).getD defaultRecord)))

/-- Model of `Session.findOneAndUpdate({instanceKey}, fields)` without upsert:
no document, no change. -/
def dbUpdate (db : String → Option SessionRecord) (k : String)
    (f : SessionRecord → SessionRecord) : String → Option SessionRecord :=
  match db k with
  | some r => fupd db k (some (f r))
  | none => db

/-- Result of `initWhatsApp`: the thrown "instanceKey is required" error, the
early return (`return sessions[instanceKey]`, possibly `undefined`), or a
successfully created socket. -/
inductive InitResult where
  | errorKeyRequired : InitResult
  | earlyReturn : Option Nat → InitResult
  | created : Nat → InitResult
deriving DecidableEq, Repr

/-- Model of `initWhatsApp(instanceKey)`, faithful to the JS control flow, including
the `finally { delete initializingSessions[instanceKey] }` that runs on
EVERY exit path — the thrown-key error, the early return taken when a live
handle or a guard already exists, and the successful creation. On the
success path the auth folder is created, the socket is made, and
`sessions[instanceKey] = sock` is assigned; the durable record is not
touched by the creation sequence itself (only by connection events). -/
def initWhatsApp (st : ServerState) (k : String) : ServerState × InitResult :=
  if k = "" then
    -- `throw` → catch deletes sessions/qrCodes entries → rethrow → finally
    ({ st with
        sessions := fupd st.sessions k none
        qrCodes := fupd st.qrCodes k none
        initializingSessions := fupd st.initializingSessions k false },
     .errorKeyRequired)
  else if (st.sessions k).isSome || st.initializingSessions k then
    -- early `return sessions[instanceKey]`; the finally block still fires
    ({ st with initializingSessions := fupd st.initializingSessions k false },
     .earlyReturn (st.sessions k))
  else
    -- guard set on entry, cleared by the finally on exit
    ({ st with
        authFiles := fupd st.authFiles k true
        sessions := fupd st.sessions k (some st.nextSock)
        nextSock := st.nextSock + 1
        initializingSessions := fupd st.initializingSessions k false },
     .created st.nextSock)

/-- Handler of `connection.update` with a `qr` payload: cache the rendered image with
its issuance time and upsert the durable record
(`qr`, `qrGeneratedAt`, `connected: false`). -/
def connUpdateQr (st : ServerState) (k qrImage : String) (now : Nat) : ServerState :=
  { st with
      qrCodes := fupd st.qrCodes k (some ⟨qrImage, now⟩)
      db := dbUpsert st.db k fun r =>
        { r with qr := some qrImage, qrGeneratedAt := some now, connected := false } }

/-- Handler of `connection.update` with `connection === 'open'`: drop the cache entry and
upsert `connected: true`, `qr: null`, `qrGeneratedAt: null`, `lastConnected`. -/
def connUpdateOpen (st : ServerState) (k : String) (now : Nat) : ServerState :=
  { st with
      qrCodes := fupd st.qrCodes k none
      db := dbUpsert st.db k fun r =>
        { r with connected := true, qr := none, qrGeneratedAt := none,
                 lastConnected := some now } }

/-- Handler of `connection.update` with `connection === 'close'`. The live handle and the
cache entry are removed and the durable record (when present) is set to
`connected: false` with the qr fields cleared, in both branches. When the
disconnect reason is `DisconnectReason.loggedOut` the auth folder and the
durable record are deleted; otherwise a reconnect (`initWhatsApp` after
5 s) is scheduled. The returned Bool reports whether a reconnect was
scheduled by this event. -/
def connUpdateClose (st : ServerState) (k : String) (isExplicitLogout : Bool) :
    ServerState × Bool :=
  let st1 := { st with
      sessions := fupd st.sessions k none
      qrCodes := fupd st.qrCodes k none }
  let st2 := { st1 with
      db := dbUpdate st1.db k fun r =>
        { r with connected := false, qr := none, qrGeneratedAt := none } }
  if isExplicitLogout then
    ({ st2 with
        authFiles := fupd st2.authFiles k false
        db := fupd st2.db k none },
     false)
  else
    (st2, true)

/-- Result of `logoutInstance`. -/
inductive LogoutResult where
  | errorKeyRequired : LogoutResult
  | success : LogoutResult
deriving DecidableEq, Repr

/-- Model of `logoutInstance(instanceKey)`: call `sock.logout()` only when a live
handle exists (the Bool in the result records whether that protocol call
was made), then unconditionally remove the handle and cache entry, the
on-disk auth folder, and the durable record, and return success. -/
def logoutInstance (st : ServerState) (k : String) :
    ServerState × LogoutResult × Bool :=
  if k = "" then
    (st, .errorKeyRequired, false)
  else
    let called := (st.sessions k).isSome
    ({ st with
        sessions := fupd st.sessions k none
        qrCodes := fupd st.qrCodes k none
        authFiles := fupd st.authFiles k false
        db := fupd st.db k none },
     .success, called)

/-- Response of `GET /qr`. `expiresIn` carries
`Math.max(0, 60 - Math.floor(qrAge))`. -/
inductive QrResponse where
  | badRequest : QrResponse
  | alreadyConnected : QrResponse
  | noQrNeedsRestart : QrResponse
  | expiredNeedsRestart : QrResponse
  | qrPayload : String → Int → QrResponse
deriving DecidableEq, Repr

/-- Resolution of the pairing payload in `GET /qr`: the cache entry, else the
durable record's `qr`/`qrGeneratedAt` when both are truthy (an empty string
is falsy in JS, so it does not resolve). -/
def resolveQr (st : ServerState) (k : String) : Option QrEntry :=
  match st.qrCodes k with
  | some e => some e
  | none =>
    match st.db k with
    | some r =>
      match r.qr, r.qrGeneratedAt with
      | some q, some t => if q = "" then none else some ⟨q, t⟩
      | _, _ => none
    | none => none

/-- The `session && session.connected && sock` check of `GET /qr` (and the
nested check of `GET /start-session`). -/
def alreadyConnectedCheck (st : ServerState) (k : String) : Bool :=
  (match st.db k with | some r => r.connected | none => false) && (st.sessions k).isSome

/-- Handler of `GET /qr?instanceKey=k` at wall-clock `now` (milliseconds).
`qrAge = (now - generatedAt) / 1000` in real seconds, so `qrAge > 60` is
`now - generatedAt > 60000`, and `Math.floor(qrAge)` is the floor division
of the millisecond age by 1000. When the age strictly exceeds 60 s the
cache entry is deleted and the durable qr fields are cleared (no upsert). -/
def qrHandler (st : ServerState) (k : String) (now : Nat) :
    ServerState × QrResponse :=
  if k = "" then (st, .badRequest)
  else if alreadyConnectedCheck st k then (st, .alreadyConnected)
  else
    match resolveQr st k with
    | none => (st, .noQrNeedsRestart)
    | some e =>
      if 60000 < (now : Int) - (e.generatedAt : Int) then
        ({ st with
            qrCodes := fupd st.qrCodes k none
            db := dbUpdate st.db k fun r =>
              { r with qr := none, qrGeneratedAt := none } },
         .expiredNeedsRestart)
      else
        (st, .qrPayload e.qr
          (max 0 (60 - Int.fdiv ((now : Int) - (e.generatedAt : Int)) 1000)))

/-- Response of `GET /start-session`. -/
inductive StartResponse where
  | badRequest : StartResponse
  | alreadyConnected : StartResponse
  | initializing : StartResponse
  | started : StartResponse
deriving DecidableEq, Repr

/-- Handler of `GET /start-session?instanceKey=k`: reject an empty key; report "already
connected" when a live handle exists and the durable record says connected;
report "initializing" when the creation guard is set (before any database
write and without calling `initWhatsApp`); otherwise upsert the placeholder
record and run `initWhatsApp`. The Bool in the result records whether this
request created a new socket. -/
def startSession (st : ServerState) (k : String) :
    ServerState × StartResponse × Bool :=
  if k = "" then (st, .badRequest, false)
  else if (st.sessions k).isSome &&
       (match st.db k with | some r => r.connected | none => false) then
    (st, .alreadyConnected, false)
  else if st.initializingSessions k then
    (st, .initializing, false)
  else
    let st1 := { st with
        db := dbUpsert st.db k fun r =>
          { r with connected := false, qr := none, qrGeneratedAt := none } }
    let res := initWhatsApp st1 k
    (res.1, .started, match res.2 with | .created _ => true | _ => false)

/-- The Baileys addressing domain appended by the send handlers. -/
def wsSuffix : String := "@s.whatsapp.net"

/-- Structural substring test mirroring JS `String.prototype.includes`:
does `needle` occur contiguously inside `hay`? -/
def hasSubstr (needle : List Char) : List Char → Bool
  | [] => needle.isEmpty
  | c :: t => needle.isPrefixOf (c :: t) || hasSubstr needle t

/-- Model of `number.includes('@s.whatsapp.net') ? number : number + '@s.whatsapp.net'`. -/
def normalizeJid (number : String) : String :=
  if hasSubstr wsSuffix.data number.data then number else number ++ wsSuffix

/-- Response of the send handlers. -/
inductive SendResponse where
  | badRequest : SendResponse
  | notConnected : SendResponse
  | sent : SendResponse
deriving DecidableEq, Repr

/-- Handler of `POST /send-message?instanceKey=k` body `{number, message}`: validate the
three fields, look up the live handle in `sessions` (only there — the
durable record is never consulted), and forward `(jid, text)` to
`sock.sendMessage`. The forwarded pair is returned when the protocol send
is attempted. -/
def sendMessage (st : ServerState) (k number message : String) :
    SendResponse × Option (String × String) :=
  if k = "" || number = "" || message = "" then (.badRequest, none)
  else
    match st.sessions k with
    | none => (.notConnected, none)
    | some _ => (.sent, some (normalizeJid number, message))

/-- Handler of `POST /send-file-url?instanceKey=k` body `{number, fileUrl, ...}`: the
same gating and jid normalization as `/send-message`, forwarding a
document; the result carries the forwarded jid when the send is attempted. -/
def sendFileUrl (st : ServerState) (k number fileUrl : String) :
    SendResponse × Option String :=
  if k = "" || number = "" || fileUrl = "" then (.badRequest, none)
  else
    match st.sessions k with
    | none => (.notConnected, none)
    | some _ => (.sent, some (normalizeJid number))

/-- The catch branch of `loadSessions` when `initWhatsApp` fails at startup:
`Session.findOneAndUpdate({instanceKey}, {connected:false, qr:null,
qrGeneratedAt:null})` (no upsert). -/
def loadSessionsFailUpdate (st : ServerState) (k : String) : ServerState :=
  { st with
      db := dbUpdate st.db k fun r =>
        { r with connected := false, qr := none, qrGeneratedAt := none } }

/-- Every operation of the server that can touch the state: the three
connection events, the HTTP handlers, a reconnect timer firing, and the
startup failure path. -/
inductive Ev where
  | qrEvent : String → String → Nat → Ev
  | openEvent : String → Nat → Ev
  | closeEvent : String → Bool → Ev
  | startReq : String → Ev
  | qrReq : String → Nat → Ev
  | logoutReq : String → Ev
  | reconnectFire : String → Ev
  | loadFail : String → Ev

/-- One step of the server. -/
def step (st : ServerState) : Ev → ServerState
  | .qrEvent k img now => connUpdateQr st k img now
  | .openEvent k now => connUpdateOpen st k now
  | .closeEvent k b => (connUpdateClose st k b).1
  | .startReq k => (startSession st k).1
  | .qrReq k now => (qrHandler st k now).1
  | .logoutReq k => (logoutInstance st k).1
  | .reconnectFire k => (initWhatsApp st k).1
  | .loadFail k => loadSessionsFailUpdate st k

/-- Run a sequence of operations. -/
def run (evs : List Ev) (st : ServerState) : ServerState :=
  evs.foldl step st

/-! ### Basic-auth middleware (`src/middleware/basicAuth.js`) -/

/-- Value of a base64 alphabet character; `none` for `=` and anything else,
which terminates decoding. -/
def b64Val (c : Char) : Option Nat :=
  if 'A' ≤ c ∧ c ≤ 'Z' then some (c.toNat - 65)
  else if 'a' ≤ c ∧ c ≤ 'z' then some (c.toNat - 97 + 26)
  else if '0' ≤ c ∧ c ≤ '9' then some (c.toNat - 48 + 52)
  else if c = '+' then some 62
  else if c = '/' then some 63
  else none

/-- Collect the 6-bit values of a base64 string up to the first
non-alphabet character (`=` padding). -/
def b64Vals : List Char → List Nat
  | [] => []
  | c :: cs =>
    match b64Val c with
    | some v => v :: b64Vals cs
    | none => []

/-- Repack 6-bit groups into bytes, dropping a trailing incomplete byte, as
`Buffer.from(s, 'base64')` does. -/
def bytesOfVals : List Nat → List Nat
  | a :: b :: c :: d :: rest =>
    (a * 4 + b / 16) :: ((b % 16) * 16 + c / 4) :: ((c % 4) * 64 + d) ::
      bytesOfVals rest
  | [a, b] => [a * 4 + b / 16]
  | [a, b, c] => [a * 4 + b / 16, (b % 16) * 16 + c / 4]
  | _ => []

/-- Model of `buffer.toString('ascii')`: each byte masked to 7 bits. -/
def asciiOfBytes (bs : List Nat) : List Char :=
  bs.map fun b => Char.ofNat (b % 128)

/-- JS `String.prototype.split` with a single-character separator: splitting
the empty string yields `[""]`, and separators at the ends yield empty
fields, exactly as in JS. -/
def splitOnChar (sep : Char) : List Char → List (List Char)
  | [] => [[]]
  | c :: cs =>
    if c = sep then [] :: splitOnChar sep cs
    else
      match splitOnChar sep cs with
      | y :: ys => (c :: y) :: ys
      | [] => [[c]]

/-- Outcome of the middleware: 401, 403, or fall through to the route. -/
inductive AuthResult where
  | unauthorized401 : AuthResult
  | forbidden403 : AuthResult
  | next : AuthResult
deriving DecidableEq, Repr

/-- Model of `process.env.X || ''`: an unset variable (and the falsy empty string)
defaults to the empty string. -/
def envOr (o : Option String) : String :=
  o.getD ""

/-- The username/password pair the middleware extracts from an
`Authorization` header that passed the `Basic ` check:
`split(' ')[1]`, base64-decode, ascii, `split(':')`, destructure
`[username, password]` (so `password` is `undefined` when the decoded
credentials hold no colon). -/
def credsOf (h : String) : List Char × Option (List Char) :=
  let b64 := (splitOnChar ' ' h.data).getD 1 []
  let creds := asciiOfBytes (bytesOfVals (b64Vals b64))
  let parts := splitOnChar ':' creds
  ((parts.getD 0 []), parts[1]?)

/-- Model of `basicAuth(req, res, next)`: 401 when the header is missing or does not
start with `Basic `; otherwise decode the credentials and compare them to
the configured pair (`===` on both components, so a missing password never
matches); matching falls through, anything else is 403. -/
def basicAuth (user pass : String) (authHeader : Option String) : AuthResult :=
  match authHeader with
  | none => .unauthorized401
  | some h =>
    if ("Basic ".data).isPrefixOf h.data then
      let c := credsOf h
      if c.1 = user.data ∧ c.2 = some pass.data then .next
      else .forbidden403
    else .unauthorized401

/-- What a request to any route sees: `app.use(basicAuth)` is registered
before every route (including `/health`), so the route handler runs only
when the middleware calls `next()`. -/
inductive RouteOutcome where
  | blocked : AuthResult → RouteOutcome
  | handled : String → RouteOutcome
deriving DecidableEq, Repr

/-- Dispatch of a request with the configured environment credentials:
the middleware first, the route handler only on `next`. -/
def routeRequest (envUser envPass : Option String) (authHeader : Option String)
    (path : String) : RouteOutcome :=
  match basicAuth (envOr envUser) (envOr envPass) authHeader with
  | .next => .handled path
  | r => .blocked r

/-! ### Concrete states used to evaluate the operations -/

/-- A state holding only a cached pairing payload for key `"k"`,
issued at time 0. -/
def stCache : ServerState :=
  { initState with qrCodes := fupd initState.qrCodes "k" (some ⟨"img", 0⟩) }

/-- The state reached by: start `"alice"`, a pairing payload arrives, the
connection closes recoverably (scheduling a reconnect), and then a logout
request completes. -/
def stAfterLogout : ServerState :=
  run [Ev.startReq "alice", Ev.qrEvent "alice" "img" 1000,
       Ev.closeEvent "alice" false, Ev.logoutReq "alice"] initState

/-- The state just before the logout in the `stAfterLogout` scenario. -/
def stBeforeLogout : ServerState :=
  run [Ev.startReq "alice", Ev.qrEvent "alice" "img" 1000] initState

/-- A state where a creation guard for `"alice"` is set and no live handle
exists: exactly what another caller observes while a first `initWhatsApp`
is suspended at an `await` before `sessions[instanceKey]` is assigned. -/
def stGuardSet : ServerState :=
  { initState with
      initializingSessions := fupd initState.initializingSessions "alice" true }

/-- A state with leftover cache, auth files and a durable record for `"k"`
but no live handle. -/
def stStale : ServerState :=
  { initState with
      qrCodes := fupd initState.qrCodes "k" (some ⟨"img", 5⟩)
      authFiles := fupd initState.authFiles "k" true
      db := fupd initState.db "k" (some defaultRecord) }

/-- A state with a live handle for `"k"` whose pairing never completed: the
durable record still carries the payload and `connected = false`. -/
def stSock : ServerState :=
  { initState with
      sessions := fupd initState.sessions "k" (some 0)
      db := fupd initState.db "k"
        (some { defaultRecord with qr := some "img", qrGeneratedAt := some 3 }) }

/-! ### Claims -/

/-- C2: logout must win over a scheduled reconnect. In the code the deferred
callback is `initWhatsApp`, whose only check is `sessions[k] ||
initializingSessions[k]`; logout clears both, so the callback that fires
after logout recreates the live handle and the auth folder instead of
aborting. The theorem evaluates the code at the failing input: a reconnect
was scheduled, logout then removed the durable record and the handle, and
the fired callback nevertheless creates a fresh socket. -/
theorem C2_logout_reconnect_race :
    (connUpdateClose stBeforeLogout "alice" false).2 = true ∧
    stAfterLogout.db "alice" = none ∧
    stAfterLogout.sessions "alice" = none ∧
    stAfterLogout.initializingSessions "alice" = false ∧
    (initWhatsApp stAfterLogout "alice").2 = InitResult.created 1 ∧
    ((initWhatsApp stAfterLogout "alice").1).sessions "alice" = some 1 ∧
    ((initWhatsApp stAfterLogout "alice").1).authFiles "alice" = true := by
  decide

/-- C3: the creation guard must be cleared exactly once, by the sequence that
set it. In the code the `finally { delete initializingSessions[k] }` runs
on every exit path, including the early `return` taken when the guard is
already set — so a second call that returns early because a first
sequence's guard is active deletes that still-active guard. The theorem
evaluates the code at the failing input: guard set, no live handle, the
call early-returns `undefined`, and afterwards the guard is gone. -/
theorem C3_guard_cleared_by_early_return :
    stGuardSet.initializingSessions "alice" = true ∧
    stGuardSet.sessions "alice" = none ∧
    (initWhatsApp stGuardSet "alice").2 = InitResult.earlyReturn none ∧
    ((initWhatsApp stGuardSet "alice").1).initializingSessions "alice" = false := by
  decide

/-- C5: close-event dichotomy. An explicit remote logout deletes the durable
record and the auth material and schedules no reconnect; any other close
reason removes the live handle and the cache entry, leaves the durable
record present with `connected = false` and the qr fields cleared, and
schedules a re-initialization. -/
theorem C5_close_event_dichotomy (st : ServerState) (k : String)
    (r : SessionRecord) (hdb : st.db k = some r) :
    ((connUpdateClose st k true).1.db k = none ∧
     (connUpdateClose st k true).1.authFiles k = false ∧
     (connUpdateClose st k true).1.sessions k = none ∧
     (connUpdateClose st k true).2 = false) ∧
    ((connUpdateClose st k false).1.sessions k = none ∧
     (connUpdateClose st k false).1.qrCodes k = none ∧
     (connUpdateClose st k false).1.db k =
       some { r with connected := false, qr := none, qrGeneratedAt := none } ∧
     (connUpdateClose st k false).2 = true) := by
  simp [connUpdateClose, dbUpdate, fupd, hdb]

/-- Witness for C5 at the concrete state `stStale`. -/
theorem C5_witness :
    ((connUpdateClose stStale "k" true).1.db "k" = none ∧
     (connUpdateClose stStale "k" true).1.authFiles "k" = false ∧
     (connUpdateClose stStale "k" true).1.sessions "k" = none ∧
     (connUpdateClose stStale "k" true).2 = false) ∧
    ((connUpdateClose stStale "k" false).1.sessions "k" = none ∧
     (connUpdateClose stStale "k" false).1.qrCodes "k" = none ∧
     (connUpdateClose stStale "k" false).1.db "k" =
       some { defaultRecord with
              connected := false
              qr := none
              qrGeneratedAt := none } ∧
     (connUpdateClose stStale "k" false).2 = true) :=
  C5_close_event_dichotomy stStale "k" defaultRecord (by decide)

/-- C6: a start-session request arriving while the creation guard is set (so
no live handle is registered yet) answers "initializing" with success, and
performs no durable upsert and no socket creation — the state is returned
unchanged. -/
theorem C6_idempotent_concurrent_start (st : ServerState) (k : String)
    (hk : k ≠ "") (hguard : st.initializingSessions k = true)
    (hsock : st.sessions k = none) :
    startSession st k = (st, .initializing, false) := by
  simp [startSession, hk, hguard, hsock]

/-- Witness for C6 at the concrete state `stGuardSet`. -/
theorem C6_witness :
    startSession stGuardSet "alice" = (stGuardSet, .initializing, false) :=
  C6_idempotent_concurrent_start stGuardSet "alice" (by decide) (by decide)
    (by decide)

/-- C7: logout on a key with no live handle makes no protocol-client logout
call, still removes the cache entry, the on-disk auth material and the
durable record, and returns success. -/
theorem C7_logout_idempotent (st : ServerState) (k : String)
    (hk : k ≠ "") (hsock : st.sessions k = none) :
    (logoutInstance st k).2.1 = .success ∧
    (logoutInstance st k).2.2 = false ∧
    (logoutInstance st k).1.sessions k = none ∧
    (logoutInstance st k).1.qrCodes k = none ∧
    (logoutInstance st k).1.authFiles k = false ∧
    (logoutInstance st k).1.db k = none := by
  simp [logoutInstance, hk, hsock, fupd]

/-- Witness for C7 at the concrete state `stStale`. -/
theorem C7_witness :
    (logoutInstance stStale "k").2.1 = LogoutResult.success ∧
    (logoutInstance stStale "k").2.2 = false ∧
    (logoutInstance stStale "k").1.sessions "k" = none ∧
    (logoutInstance stStale "k").1.qrCodes "k" = none ∧
    (logoutInstance stStale "k").1.authFiles "k" = false ∧
    (logoutInstance stStale "k").1.db "k" = none :=
  C7_logout_idempotent stStale "k" (by decide) (by decide)

/-- C1 counterexample: the claim says retrieval at age exactly equal to the
60-second window returns "expired". In the code the test is strict
(`qrAge > 60`), so at age exactly 60 s (payload issued at 0, read at
60000 ms) the handler returns the payload with `expiresIn = 0`, does not
report expired, and clears nothing. -/
theorem C1_counterexample :
    resolveQr stCache "k" = some ⟨"img", 0⟩ ∧
    (qrHandler stCache "k" 60000).2 = QrResponse.qrPayload "img" 0 ∧
    (qrHandler stCache "k" 60000).2 ≠ QrResponse.expiredNeedsRestart ∧
    ((qrHandler stCache "k" 60000).1).qrCodes "k" = some ⟨"img", 0⟩ := by
  decide

/-- C1 (amended): when the payload's age strictly exceeds the 60 s window the
handler clears the cache entry and the durable qr fields and reports
expired; at age at most the window it returns the payload with
`expiresIn = max 0 (60 - floor(age))` and leaves the state unchanged — in
particular `expiresIn = 1` at age 59 s and `expiresIn = 0` at age exactly
60 s. -/
theorem C1_qr_expiry (st : ServerState) (k : String) (now : Nat) (e : QrEntry)
    (hk : k ≠ "") (hac : alreadyConnectedCheck st k = false)
    (hres : resolveQr st k = some e) :
    (60000 < (now : Int) - e.generatedAt →
      (qrHandler st k now).2 = QrResponse.expiredNeedsRestart ∧
      ((qrHandler st k now).1).qrCodes k = none ∧
      (∀ r, ((qrHandler st k now).1).db k = some r →
        r.qr = none ∧ r.qrGeneratedAt = none)) ∧
    ((now : Int) - e.generatedAt ≤ 60000 →
      (qrHandler st k now).2 =
        QrResponse.qrPayload e.qr
          (max 0 (60 - Int.fdiv ((now : Int) - e.generatedAt) 1000)) ∧
      (qrHandler st k now).1 = st) ∧
    (now = e.generatedAt + 59000 →
      (qrHandler st k now).2 = QrResponse.qrPayload e.qr 1) ∧
    (now = e.generatedAt + 60000 →
      (qrHandler st k now).2 = QrResponse.qrPayload e.qr 0) := by
  have hq : qrHandler st k now =
      (if 60000 < (now : Int) - e.generatedAt then
        ({ st with
            qrCodes := fupd st.qrCodes k none
            db := dbUpdate st.db k fun r =>
              { r with qr := none, qrGeneratedAt := none } },
         QrResponse.expiredNeedsRestart)
      else
        (st, QrResponse.qrPayload e.qr
          (max 0 (60 - Int.fdiv ((now : Int) - e.generatedAt) 1000)))) := by
    simp [qrHandler, hk, hac, hres]
  refine ⟨fun hgt => ?_, fun hle => ?_, fun h59 => ?_, fun h60 => ?_⟩
  · rw [hq, if_pos hgt]
    refine ⟨rfl, by simp [fupd], fun r hr => ?_⟩
    revert hr
    cases hdb : st.db k with
    | none => simp [dbUpdate, hdb]
    | some r0 =>
      simp only [dbUpdate, hdb, fupd, if_pos rfl]
      intro hr
      cases hr
      exact ⟨rfl, rfl⟩
  · rw [hq, if_neg (by omega)]
    exact ⟨rfl, rfl⟩
  · subst h59
    have hage : ((e.generatedAt + 59000 : Nat) : Int) - (e.generatedAt : Int) =
        59000 := by
      push_cast
      ring
    rw [hq, if_neg (by rw [hage]; decide), hage]
    have h1 : max (0 : Int) (60 - Int.fdiv 59000 1000) = 1 := by decide
    rw [h1]
  · subst h60
    have hage : ((e.generatedAt + 60000 : Nat) : Int) - (e.generatedAt : Int) =
        60000 := by
      push_cast
      ring
    rw [hq, if_neg (by rw [hage]; decide), hage]
    have h0 : max (0 : Int) (60 - Int.fdiv 60000 1000) = 0 := by decide
    rw [h0]

/-- Witness for C1 at the concrete state `stCache`, reading at 70 s. -/
theorem C1_witness :
    (qrHandler stCache "k" 70000).2 = QrResponse.expiredNeedsRestart ∧
    ((qrHandler stCache "k" 70000).1).qrCodes "k" = none := by
  have h := (C1_qr_expiry stCache "k" 70000 ⟨"img", 0⟩ (by decide) (by decide)
    (by decide)).1 (by decide)
  exact ⟨h.1, h.2.1⟩

/-- Any list is a contiguous substring of itself extended on the left. -/
theorem hasSubstr_append (n : List Char) :
    ∀ t : List Char, hasSubstr n (t ++ n) = true := by
  intro t
  induction t with
  | nil =>
    cases n with
    | nil => rfl
    | cons c cs =>
      show ((c :: cs).isPrefixOf (c :: cs) || hasSubstr (c :: cs) cs) = true
      rw [List.isPrefixOf_iff_prefix.mpr List.prefix_rfl, Bool.true_or]
  | cons c t ih =>
    show (n.isPrefixOf (c :: (t ++ n)) || hasSubstr n (t ++ n)) = true
    rw [ih, Bool.or_true]

/-- The protocol's addressing form, following the spec's words: the recipient
already carries the domain suffix, i.e. ends with `@s.whatsapp.net`. This
definition exists only to compare the spec's normalization with the
code's. -/
def inAddressingForm (number : String) : Bool :=
  wsSuffix.data.isSuffixOf number.data

/-- Normalization as the spec's words describe it: leave a recipient already
in the addressing form unchanged, append the domain suffix otherwise. -/
def specNormalizeJid (number : String) : String :=
  if inAddressingForm number then number else number ++ wsSuffix

/-- A suffix of the character list is in particular a contiguous substring. -/
theorem hasSubstr_of_isSuffixOf (n h : List Char)
    (hs : n.isSuffixOf h = true) : hasSubstr n h = true := by
  obtain ⟨t, rfl⟩ := List.isSuffixOf_iff_suffix.mp hs
  exact hasSubstr_append n t

/-- C8 counterexample: the claim says a recipient not already in the
addressing form has the domain suffix appended. The code tests substring
containment (`includes`), not the addressing form: the recipient
`"1555@s.whatsapp.net.x"` is not in the addressing form, yet it is
forwarded unchanged by `/send-message`, differing from the spec-worded
normalization. -/
theorem C8_counterexample :
    inAddressingForm "1555@s.whatsapp.net.x" = false ∧
    normalizeJid "1555@s.whatsapp.net.x" = "1555@s.whatsapp.net.x" ∧
    specNormalizeJid "1555@s.whatsapp.net.x" =
      "1555@s.whatsapp.net.x@s.whatsapp.net" ∧
    normalizeJid "1555@s.whatsapp.net.x" ≠
      specNormalizeJid "1555@s.whatsapp.net.x" ∧
    (sendMessage stSock "k" "1555@s.whatsapp.net.x" "hi").2 =
      some ("1555@s.whatsapp.net.x", "hi") := by
  decide

/-- C8 (amended): with a live handle, both send operations forward
`normalizeJid number`; a recipient containing the domain suffix anywhere
as a substring is forwarded unchanged, the suffix is appended exactly when
the recipient does not contain it at all, and in particular a recipient in
the addressing form (suffix at the end) is forwarded unchanged, and
`"1555"` becomes `"1555@s.whatsapp.net"`. -/
theorem C8_recipient_normalization (st : ServerState) (k number message : String)
    (hk : k ≠ "") (hn : number ≠ "") (hm : message ≠ "")
    (hsock : (st.sessions k).isSome = true) :
    (sendMessage st k number message).2 = some (normalizeJid number, message) ∧
    (sendFileUrl st k number "http://u").2 = some (normalizeJid number) ∧
    (hasSubstr wsSuffix.data number.data = true → normalizeJid number = number) ∧
    (hasSubstr wsSuffix.data number.data = false →
      normalizeJid number = number ++ wsSuffix) ∧
    (inAddressingForm number = true → normalizeJid number = number) ∧
    normalizeJid "1555" = "1555@s.whatsapp.net" := by
  obtain ⟨h, hh⟩ := Option.isSome_iff_exists.mp hsock
  refine ⟨?_, ?_, ?_, ?_, ?_, by decide⟩
  · simp [sendMessage, hk, hn, hm, hh]
  · simp [sendFileUrl, hk, hn, hh]
  · intro hc
    simp [normalizeJid, hc]
  · intro hc
    simp [normalizeJid, hc]
  · intro hform
    simp [normalizeJid, hasSubstr_of_isSuffixOf _ _ hform]

/-- Witness for C8 at the live-handle state `stSock` and recipient `"1555"`. -/
theorem C8_witness :
    (sendMessage stSock "k" "1555" "hi").2 = some (normalizeJid "1555", "hi") ∧
    (sendFileUrl stSock "k" "1555" "http://u").2 = some (normalizeJid "1555") ∧
    (hasSubstr wsSuffix.data "1555".data = true → normalizeJid "1555" = "1555") ∧
    (hasSubstr wsSuffix.data "1555".data = false →
      normalizeJid "1555" = "1555" ++ wsSuffix) ∧
    (inAddressingForm "1555" = true → normalizeJid "1555" = "1555") ∧
    normalizeJid "1555" = "1555@s.whatsapp.net" :=
  C8_recipient_normalization stSock "k" "1555" "hi" (by decide) (by decide)
    (by decide) (by decide)

/-- C9: every route — `/health` included — sits behind the Basic-auth
middleware: with no `Authorization` header, or a header not starting with
`"Basic "`, any request is blocked with 401; a header whose decoded
credentials differ from the configured pair is blocked with 403; and with
both environment variables unset the empty pair is the configured one, so
`"Basic Og=="` (base64 of `":"`) authenticates and the route handler runs,
for `/health` as for any path. -/
theorem C9_basic_auth_gating (envU envP : Option String)
    (path badH wrongH : String)
    (hbad : ("Basic ".data).isPrefixOf badH.data = false)
    (hstart : ("Basic ".data).isPrefixOf wrongH.data = true)
    (hwrong : credsOf wrongH ≠ ((envOr envU).data, some (envOr envP).data)) :
    routeRequest envU envP none path = .blocked .unauthorized401 ∧
    routeRequest envU envP (some badH) path = .blocked .unauthorized401 ∧
    routeRequest envU envP (some wrongH) path = .blocked .forbidden403 ∧
    routeRequest none none (some "Basic Og==") "/health" =
      .handled "/health" ∧
    routeRequest none none (some "Basic Og==") path = .handled path := by
  have hok : basicAuth (envOr none) (envOr none) (some "Basic Og==") =
      .next := by decide
  refine ⟨rfl, ?_, ?_, ?_, ?_⟩
  · simp [routeRequest, basicAuth, hbad]
  · have hne : ¬ ((credsOf wrongH).1 = (envOr envU).data ∧
        (credsOf wrongH).2 = some ((envOr envP).data)) := by
      intro hc
      exact hwrong (Prod.ext hc.1 hc.2)
    simp [routeRequest, basicAuth, hstart, hne]
  · simp [routeRequest, hok]
  · simp [routeRequest, hok]

/-- Witness for C9: configured pair `("u", "p")`, a token header, and a
header carrying base64 of `"a:b"`. -/
theorem C9_witness :
    routeRequest (some "u") (some "p") none "/qr" =
      RouteOutcome.blocked .unauthorized401 ∧
    routeRequest (some "u") (some "p") (some "Token z") "/qr" =
      RouteOutcome.blocked .unauthorized401 ∧
    routeRequest (some "u") (some "p") (some "Basic YTpi") "/qr" =
      RouteOutcome.blocked .forbidden403 ∧
    routeRequest none none (some "Basic Og==") "/health" =
      RouteOutcome.handled "/health" ∧
    routeRequest none none (some "Basic Og==") "/qr" =
      RouteOutcome.handled "/qr" :=
  C9_basic_auth_gating (some "u") (some "p") "/qr" "Token z" "Basic YTpi"
    (by decide) (by decide) (by decide)

/-- C10: send gating is Registry presence only. A send raises "not connected"
exactly when `sessions` has no entry for the key; when an entry exists the
protocol send is attempted and the forwarded payload is produced; the
handler's outcome is entirely independent of the durable record (replacing
the whole database leaves it unchanged); and `initWhatsApp` registers the
live handle at socket creation while leaving the durable record untouched,
so a key that has started but never paired passes the check. -/
theorem C10_send_gating_registry_only (st : ServerState)
    (k number message fileUrl : String)
    (hk : k ≠ "") (hn : number ≠ "") (hm : message ≠ "") (hu : fileUrl ≠ "") :
    ((sendMessage st k number message).1 = .notConnected ↔
      st.sessions k = none) ∧
    ((sendFileUrl st k number fileUrl).1 = .notConnected ↔
      st.sessions k = none) ∧
    (∀ h, st.sessions k = some h →
      (sendMessage st k number message).2 = some (normalizeJid number, message)) ∧
    (∀ d, sendMessage { st with db := d } k number message =
      sendMessage st k number message) ∧
    (st.sessions k = none → st.initializingSessions k = false →
      (initWhatsApp st k).2 = .created st.nextSock ∧
      ((initWhatsApp st k).1).sessions k = some st.nextSock ∧
      ((initWhatsApp st k).1).db = st.db) := by
  refine ⟨?_, ?_, ?_, fun d => rfl, fun hs hg => ?_⟩
  · cases hs : st.sessions k with
    | none => simp [sendMessage, hk, hn, hm, hs]
    | some h => simp [sendMessage, hk, hn, hm, hs]
  · cases hs : st.sessions k with
    | none => simp [sendFileUrl, hk, hn, hu, hs]
    | some h => simp [sendFileUrl, hk, hn, hu, hs]
  · intro h hh
    simp [sendMessage, hk, hn, hm, hh]
  · simp [initWhatsApp, hk, hs, hg, fupd]

/-- Witness for C10 at the never-paired live-handle state `stSock` (for the
registry hit) — its durable record still says `connected = false` — and at
`initState` (for the miss and the creation clause). -/
theorem C10_witness :
    (((sendMessage stSock "k" "1555" "hi").1 = SendResponse.notConnected ↔
        stSock.sessions "k" = none) ∧
     ((sendFileUrl stSock "k" "1555" "http://u").1 = SendResponse.notConnected ↔
        stSock.sessions "k" = none) ∧
     (∀ h, stSock.sessions "k" = some h →
       (sendMessage stSock "k" "1555" "hi").2 =
         some (normalizeJid "1555", "hi")) ∧
     (∀ d, sendMessage { stSock with db := d } "k" "1555" "hi" =
       sendMessage stSock "k" "1555" "hi") ∧
     (stSock.sessions "k" = none → stSock.initializingSessions "k" = false →
       (initWhatsApp stSock "k").2 = .created stSock.nextSock ∧
       ((initWhatsApp stSock "k").1).sessions "k" = some stSock.nextSock ∧
       ((initWhatsApp stSock "k").1).db = stSock.db)) ∧
    (((sendMessage initState "b" "1555" "hi").1 = SendResponse.notConnected ↔
        initState.sessions "b" = none) ∧
     ((sendFileUrl initState "b" "1555" "http://u").1 = SendResponse.notConnected ↔
        initState.sessions "b" = none) ∧
     (∀ h, initState.sessions "b" = some h →
       (sendMessage initState "b" "1555" "hi").2 =
         some (normalizeJid "1555", "hi")) ∧
     (∀ d, sendMessage { initState with db := d } "b" "1555" "hi" =
       sendMessage initState "b" "1555" "hi") ∧
     (initState.sessions "b" = none → initState.initializingSessions "b" = false →
       (initWhatsApp initState "b").2 = .created initState.nextSock ∧
       ((initWhatsApp initState "b").1).sessions "b" = some initState.nextSock ∧
       ((initWhatsApp initState "b").1).db = initState.db)) :=
  ⟨C10_send_gating_registry_only stSock "k" "1555" "hi" "http://u"
     (by decide) (by decide) (by decide) (by decide),
   C10_send_gating_registry_only initState "b" "1555" "hi" "http://u"
     (by decide) (by decide) (by decide) (by decide)⟩

/-! ### The durable-record invariant -/

/-- Boolean form of the durable-record invariant: a record never says
`connected = true` while holding a pairing payload, and `qrGeneratedAt` is
present exactly when `qr` is. -/
def recInvB : Option SessionRecord → Bool
  | none => true
  | some r =>
    (!r.connected || r.qr.isNone) && (r.qrGeneratedAt.isSome == r.qr.isSome)

theorem recInvB_dbUpsert (db : String → Option SessionRecord) (k : String)
    (f : SessionRecord → SessionRecord)
    (hdb : ∀ k', recInvB (db k') = true)
    (hf : ∀ r, recInvB (some (f r)) = true) :
    ∀ k', recInvB (dbUpsert db k f k') = true := by
  intro k'
  by_cases h : k' = k
  · simp [dbUpsert, fupd, h, hf]
  · simp [dbUpsert, fupd, h, hdb k']

theorem recInvB_dbUpdate (db : String → Option SessionRecord) (k : String)
    (f : SessionRecord → SessionRecord)
    (hdb : ∀ k', recInvB (db k') = true)
    (hf : ∀ r, recInvB (some (f r)) = true) :
    ∀ k', recInvB (dbUpdate db k f k') = true := by
  intro k'
  cases hx : db k with
  | none => simp [dbUpdate, hx, hdb k']
  | some r =>
    by_cases h : k' = k
    · simp [dbUpdate, hx, fupd, h, hf]
    · simp [dbUpdate, hx, fupd, h, hdb k']

theorem recInvB_fupdNone (db : String → Option SessionRecord) (k : String)
    (hdb : ∀ k', recInvB (db k') = true) :
    ∀ k', recInvB (fupd db k none k') = true := by
  intro k'
  by_cases h : k' = k
  · simp [fupd, h, recInvB]
  · simp [fupd, h, hdb k']

/-- The creation sequence never writes the durable record. -/
theorem initWhatsApp_db (st : ServerState) (k : String) :
    ((initWhatsApp st k).1).db = st.db := by
  unfold initWhatsApp
  split_ifs <;> rfl

/-- The start handler either leaves the database alone or upserts the
placeholder record. -/
theorem startSession_db (st : ServerState) (k : String) :
    ((startSession st k).1).db = st.db ∨
    ((startSession st k).1).db = dbUpsert st.db k
      (fun r => { r with connected := false, qr := none, qrGeneratedAt := none }) := by
  unfold startSession
  split_ifs with h1 h2 h3
  · left; rfl
  · left; rfl
  · left; rfl
  · right
    show ((initWhatsApp _ k).1).db = _
    rw [initWhatsApp_db]

/-- Every operation preserves the durable-record invariant at every key. -/
theorem step_preserves_recInvB (st : ServerState)
    (hdb : ∀ k', recInvB (st.db k') = true) (e : Ev) :
    ∀ k', recInvB ((step st e).db k') = true := by
  cases e with
  | qrEvent k img now =>
    show ∀ k', recInvB ((dbUpsert st.db k fun r =>
      { r with qr := some img, qrGeneratedAt := some now,
               connected := false }) k') = true
    exact recInvB_dbUpsert _ _ _ hdb (fun r => by simp [recInvB])
  | openEvent k now =>
    show ∀ k', recInvB ((dbUpsert st.db k fun r =>
      { r with connected := true, qr := none, qrGeneratedAt := none,
               lastConnected := some now }) k') = true
    exact recInvB_dbUpsert _ _ _ hdb (fun r => by simp [recInvB])
  | closeEvent k b =>
    intro k'
    have hmid : ∀ k'', recInvB ((dbUpdate st.db k fun r =>
        { r with connected := false, qr := none, qrGeneratedAt := none }) k'') =
        true :=
      recInvB_dbUpdate _ _ _ hdb (fun r => by simp [recInvB])
    show recInvB (((connUpdateClose st k b).1).db k') = true
    cases b with
    | false => exact hmid k'
    | true => exact recInvB_fupdNone _ _ hmid k'
  | startReq k =>
    intro k'
    show recInvB (((startSession st k).1).db k') = true
    rcases startSession_db st k with h | h
    · rw [h]; exact hdb k'
    · rw [h]
      exact recInvB_dbUpsert _ _ _ hdb (fun r => by simp [recInvB]) k'
  | qrReq k now =>
    intro k'
    show recInvB (((qrHandler st k now).1).db k') = true
    unfold qrHandler
    split
    · exact hdb k'
    · split
      · exact hdb k'
      · split
        · exact hdb k'
        · split
          · exact recInvB_dbUpdate _ _ _ hdb (fun r => by simp [recInvB]) k'
          · exact hdb k'
  | logoutReq k =>
    intro k'
    show recInvB (((logoutInstance st k).1).db k') = true
    unfold logoutInstance
    split
    · exact hdb k'
    · exact recInvB_fupdNone _ _ hdb k'
  | reconnectFire k =>
    intro k'
    show recInvB (((initWhatsApp st k).1).db k') = true
    rw [initWhatsApp_db]
    exact hdb k'
  | loadFail k =>
    exact recInvB_dbUpdate _ _ _ hdb (fun r => by simp [recInvB])

/-- The invariant is preserved by any sequence of operations. -/
theorem run_preserves_recInvB (evs : List Ev) :
    ∀ st : ServerState, (∀ k', recInvB (st.db k') = true) →
      ∀ k', recInvB ((run evs st).db k') = true := by
  induction evs with
  | nil => intro st h k'; exact h k'
  | cons e t ih =>
    intro st h k'
    exact ih (step st e) (step_preserves_recInvB st h e) k'

/-- C4: after any sequence of lifecycle events and operations from process
start, a durable record never simultaneously has `connected = true` and a
pairing payload, and `qrGeneratedAt` is present exactly when the payload
is. -/
theorem C4_durable_record_invariant (evs : List Ev) (k : String)
    (r : SessionRecord) (hr : (run evs initState).db k = some r) :
    (r.connected = true → r.qr = none) ∧
    (r.qrGeneratedAt.isSome ↔ r.qr.isSome) := by
  have h := run_preserves_recInvB evs initState (fun _ => rfl) k
  rw [hr] at h
  simp only [recInvB, Bool.and_eq_true, Bool.or_eq_true, Bool.not_eq_true',
    beq_iff_eq] at h
  refine ⟨fun hc => ?_, by rw [h.2]⟩
  rcases h.1 with h1 | h1
  · rw [hc] at h1; cases h1
  · exact Option.isNone_iff_eq_none.mp h1

/-- Witness for C4: a pairing event and then an open event on `"alice"`,
whose resulting record is `connected = true` with both qr fields cleared. -/
theorem C4_witness :
    (({ connected := true, qr := none, qrGeneratedAt := none,
        lastConnected := some 9 } : SessionRecord).connected = true →
     ({ connected := true, qr := none, qrGeneratedAt := none,
        lastConnected := some 9 } : SessionRecord).qr = none) ∧
    (({ connected := true, qr := none, qrGeneratedAt := none,
        lastConnected := some 9 } : SessionRecord).qrGeneratedAt.isSome ↔
     ({ connected := true, qr := none, qrGeneratedAt := none,
        lastConnected := some 9 } : SessionRecord).qr.isSome) :=
  C4_durable_record_invariant
    [Ev.qrEvent "alice" "img" 5, Ev.openEvent "alice" 9] "alice"
    { connected := true, qr := none, qrGeneratedAt := none,
      lastConnected := some 9 }
    (by decide)

end WhatsappApi

